import Mathlib

/-!
Verification of the customer-support ticket system's data model and
query/update logic, shallowly embedded from the repository's sources:
the SQL schema and trigger in
`supabase/migrations/20250810152024_black_reef.sql`, the query facade and
mutation hooks in `src/hooks/useTickets.ts`, the dashboard aggregates in
`src/components/Dashboard.tsx`, and the comment panel in
`src/components/TicketModal.tsx`.

Timestamps are modelled as natural numbers (milliseconds); nullable SQL
columns become `Option`; the database trigger runs inside the update
operation, mirroring `BEFORE UPDATE ... FOR EACH ROW`.
-/

namespace TicketSystem

/-- Roles from the `users.role` check constraint: `user` or `admin`. -/
inductive Role where
  | user
  | admin
deriving DecidableEq, BEq

/-- Ticket statuses from the `tickets.status` check constraint. -/
inductive Status where
  | open_
  | in_progress
  | resolved
  | closed
deriving DecidableEq, BEq

/-- Ticket priorities from the `tickets.priority` check constraint. -/
inductive Priority where
  | low
  | medium
  | high
  | urgent
deriving DecidableEq, BEq

/-- The stored text of a status, as compared by the `eq('status', ...)` filter. -/
def statusToString : Status → String
  | .open_ => "open"
  | .in_progress => "in_progress"
  | .resolved => "resolved"
  | .closed => "closed"

/-- The stored text of a priority, as compared by the `eq('priority', ...)` filter. -/
def priorityToString : Priority → String
  | .low => "low"
  | .medium => "medium"
  | .high => "high"
  | .urgent => "urgent"

/-- A row of the `users` table (the fields the claims need). -/
structure UserRow where
  id : String
  role : Role
deriving DecidableEq

/-- A row of the `tickets` table. -/
structure Ticket where
  id : String
  title : String
  description : String
  priority : Priority
  status : Status
  category : Option String
  created_by : String
  assigned_to : Option String
  created_at : Nat
  updated_at : Nat
  resolved_at : Option Nat
deriving DecidableEq

/-- A row of the `ticket_comments` table. -/
structure CommentRow where
  ticket_id : String
  user_id : String
  comment : String
  created_at : Nat
deriving DecidableEq

/-- `NEW.status IN ('resolved', 'closed')` from the trigger body. -/
def isResolvedOrClosed : Status → Bool
  | .resolved => true
  | .closed => true
  | _ => false

/-- The update payload the application sends: `TicketModal` builds
`editData = { status, priority, assigned_to }` and `updateTicket` forwards
it as a partial row, so each field is optionally present. -/
structure TicketUpdate where
  status : Option Status
  priority : Option Priority
  assigned_to : Option (Option String)
deriving DecidableEq

/-- The columns written by `UPDATE tickets SET ...` before the trigger runs:
each supplied field replaces the old value. -/
def applyPayload (t : Ticket) (u : TicketUpdate) : Ticket :=
  { t with
    status := u.status.getD t.status
    priority := u.priority.getD t.priority
    assigned_to := u.assigned_to.getD t.assigned_to }

/-- One successful `UPDATE` of a ticket row at time `now`, including the
`update_updated_at_column` trigger (`BEFORE UPDATE`): `NEW.updated_at = now()`,
and if `OLD.status != NEW.status AND NEW.status IN ('resolved','closed')
AND OLD.resolved_at IS NULL` then `NEW.resolved_at = now()`. -/
def applyUpdate (now : Nat) (t : Ticket) (u : TicketUpdate) : Ticket :=
  let n := { applyPayload t u with updated_at := now }
  if t.status ≠ n.status ∧ isResolvedOrClosed n.status = true ∧ t.resolved_at = none then
    { n with resolved_at := some now }
  else
    n

/-- A sequence of successful updates, each with its own clock reading. -/
def runUpdates (t : Ticket) : List (Nat × TicketUpdate) → Ticket
  | [] => t
  | (now, u) :: rest => runUpdates (applyUpdate now t u) rest

/-- Specification-side view of the resolved-at bookkeeping: scanning a
sequence of updates from a given status, the time of the first update whose
status transitions into `resolved` or `closed`, or `none` if there is none.
Everything after the first such transition is ignored. -/
def firstResolution (st : Status) : List (Nat × TicketUpdate) → Option Nat
  | [] => none
  | (now, u) :: rest =>
    if st ≠ u.status.getD st ∧ isResolvedOrClosed (u.status.getD st) = true then
      some now
    else
      firstResolution (u.status.getD st) rest

/-- An `INSERT INTO tickets (title, description, priority, status, category,
created_by, assigned_to) VALUES ...` as in the migration's demo rows: the
column list omits `resolved_at`, so it takes its (absent) default and the row
starts with `resolved_at` null; `created_at`/`updated_at` default to `now()`.
No trigger runs on insert (`update_tickets_updated_at` is `BEFORE UPDATE` only). -/
def sqlInsertTicket (now : Nat) (newId title description : String) (priority : Priority)
    (status : Status) (category : Option String) (created_by : String)
    (assigned_to : Option String) : Ticket :=
  { id := newId, title := title, description := description, priority := priority,
    status := status, category := category, created_by := created_by,
    assigned_to := assigned_to, created_at := now, updated_at := now,
    resolved_at := none }

/-- The record accepted by the hook `createTicket`:
`Omit<Ticket, 'id' | 'created_at' | 'updated_at'>`, so the caller may supply
any of the remaining ticket columns, including `created_by`, `status` and
`resolved_at`. -/
structure CreateFields where
  title : String
  description : String
  priority : Priority
  status : Status
  category : Option String
  created_by : String
  assigned_to : Option String
  resolved_at : Option Nat
deriving DecidableEq

/-- The row persisted by the hook `createTicket`: it spreads the supplied
record and then overwrites `created_by` with the caller's id
(`{ ...ticketData, created_by: user?.id }`); `id`, `created_at` and
`updated_at` come from the database defaults. -/
def createTicketRow (caller : UserRow) (now : Nat) (newId : String)
    (f : CreateFields) : Ticket :=
  { id := newId, title := f.title, description := f.description,
    priority := f.priority, status := f.status, category := f.category,
    created_by := caller.id, assigned_to := f.assigned_to,
    created_at := now, updated_at := now, resolved_at := f.resolved_at }

/-- The record `CreateTicket.tsx`'s `handleSubmit` passes to `createTicket`:
the form's title, description, priority and category, plus hard-coded
`status: 'open'`, `created_by: ''` and `assigned_to: null`. -/
def handleSubmitFields (title description : String) (priority : Priority)
    (category : Option String) : CreateFields :=
  { title := title, description := description, priority := priority,
    status := .open_, category := category, created_by := "",
    assigned_to := none, resolved_at := none }

/-- The `tickets` SELECT row-level-security policy: visible iff
`created_by = auth.uid() OR assigned_to = auth.uid() OR` the caller is an
admin. -/
def rlsCanSelect (caller : UserRow) (t : Ticket) : Bool :=
  t.created_by == caller.id || t.assigned_to == some caller.id ||
    caller.role == Role.admin

/-- The filter set accepted by `useTickets`: each entry is an optional
string (`status`, `priority`, `assignee`, `search`). -/
structure Filters where
  status : Option String
  priority : Option String
  assignee : Option String
  search : Option String

/-- Guard of the equality filters: `if (filters.x && filters.x !== 'all')`,
i.e. the value is present, non-empty (JavaScript truthiness) and not the
literal string `all`. -/
def eqFilterActive : Option String → Bool
  | some s => s != "" && s != "all"
  | none => false

/-- Guard of the free-text filter: `if (filters.search)`, i.e. present and
non-empty. -/
def searchActive : Option String → Bool
  | some s => s != ""
  | none => false

/-- Whether `pat` occurs as a contiguous sublist of `s`. -/
def isSubList (pat : List Char) : List Char → Bool
  | [] => pat.isEmpty
  | c :: rest => pat.isPrefixOf (c :: rest) || isSubList pat rest

/-- The `ilike '%pat%'` match used by the search filter: case-insensitive
substring of the column text. -/
def ilike (pat s : String) : Bool :=
  isSubList (pat.data.map Char.toLower) (s.data.map Char.toLower)

/-- A conditionally applied query filter: one `query = query.eq(...)` or
`query.or(...)` step of `fetchTickets`. -/
def applyFilterIf (b : Bool) (p : Ticket → Bool) (l : List Ticket) : List Ticket :=
  if b then l.filter p else l

/-- Insertion step for ordering by `created_at` descending. -/
def insertByCreatedDesc (t : Ticket) : List Ticket → List Ticket
  | [] => [t]
  | x :: xs =>
    if x.created_at ≤ t.created_at then t :: x :: xs
    else x :: insertByCreatedDesc t xs

/-- The `order('created_at', { ascending: false })` clause. -/
def sortByCreatedDesc (l : List Ticket) : List Ticket :=
  l.foldr insertByCreatedDesc []

/-- The query facade `fetchTickets` of `useTickets.ts`, applied to the table
contents `rows`: the database evaluates the row-level-security policy, then
`if (user?.role === 'user') query.eq('created_by', user.id)`, then the four
optional filters, and orders by creation time descending. -/
def fetchTickets (caller : UserRow) (f : Filters) (rows : List Ticket) : List Ticket :=
  let visible := rows.filter (rlsCanSelect caller)
  let roleScoped :=
    if caller.role = Role.user then
      visible.filter (fun t => t.created_by == caller.id)
    else visible
  let s1 := applyFilterIf (eqFilterActive f.status)
    (fun t => statusToString t.status == f.status.getD "") roleScoped
  let s2 := applyFilterIf (eqFilterActive f.priority)
    (fun t => priorityToString t.priority == f.priority.getD "") s1
  let s3 := applyFilterIf (eqFilterActive f.assignee)
    (fun t => t.assigned_to == some (f.assignee.getD "")) s2
  let s4 := applyFilterIf (searchActive f.search)
    (fun t => ilike (f.search.getD "") t.title || ilike (f.search.getD "") t.description) s3
  sortByCreatedDesc s4

/-- `tickets.filter(t => t.status === 'resolved' || t.status === 'closed').length`
from `fetchDashboardData`. -/
def resolvedCount (ts : List Ticket) : Nat :=
  (ts.filter (fun t => isResolvedOrClosed t.status)).length

/-- The dashboard resolution rate:
`totalTickets > 0 ? Math.round((resolvedTickets / totalTickets) * 100) : 0`,
with `Math.round x = ⌊x + 1/2⌋` on the (nonnegative) exact ratio. -/
def resolutionRate (ts : List Ticket) : Nat :=
  if 0 < ts.length then
    ⌊(resolvedCount ts : ℚ) / (ts.length : ℚ) * 100 + 1 / 2⌋₊
  else 0

/-- Round-to-nearest (ties up) of `num / den`, the specification's
`round(resolvedCount / total * 100)` with `num = 100 * resolvedCount`,
`den = total`. -/
def roundNearest (num den : Nat) : Nat :=
  (2 * num + den) / (2 * den)

/-- The dashboard's qualifying set for the average resolution time:
`(t.status === 'resolved' || t.status === 'closed') && t.resolved_at`. -/
def hasResolutionTime (t : Ticket) : Bool :=
  isResolvedOrClosed t.status && t.resolved_at.isSome

/-- `resolvedTicketsWithTime` from `fetchDashboardData`. -/
def resolvedTicketsWithTime (ts : List Ticket) : List Ticket :=
  ts.filter hasResolutionTime

/-- Milliseconds per day: the `1000 * 60 * 60 * 24` divisor. -/
def msPerDay : Nat := 86400000

/-- `reduce((sum, ticket) => sum + (resolved - created), 0)`. -/
def sumResolutionMs (ts : List Ticket) : Int :=
  ts.foldl (fun s t => s + ((t.resolved_at.getD 0 : Int) - (t.created_at : Int))) 0

/-- The dashboard average resolution time in days, over the qualifying set:
sum of `resolved_at - created_at`, divided by the count, divided by
milliseconds-per-day; `0` when the set is empty. -/
def avgResolutionTime (ts : List Ticket) : ℚ :=
  if 0 < (resolvedTicketsWithTime ts).length then
    (sumResolutionMs (resolvedTicketsWithTime ts) : ℚ) /
      ((resolvedTicketsWithTime ts).length : ℚ) / (msPerDay : ℚ)
  else 0

/-- The average the claim describes, for comparison: computed over the set
of tickets that have `resolved_at` set (every ticket has `created_at`),
with tickets lacking `resolved_at` excluded from numerator and denominator,
and `0` when that set is empty. -/
def claimedAvgResolutionTime (ts : List Ticket) : ℚ :=
  let rs := ts.filter (fun t => t.resolved_at.isSome)
  if 0 < rs.length then
    (sumResolutionMs rs : ℚ) / (rs.length : ℚ) / (msPerDay : ℚ)
  else 0

/-- An error surfaced by the storage boundary. -/
inductive BackendErr where
  | backend
deriving DecidableEq

/-- `fetchTickets`'s effect on the hook's `tickets` state: on success the
state becomes the fetched data; on error the function logs
(`console.error`) and leaves the previous state displayed. -/
def fetchTicketsEffect (prev : List Ticket) (r : Except BackendErr (List Ticket)) :
    List Ticket :=
  match r with
  | .ok d => d
  | .error _ => prev

/-- The hook `createTicket`: on an insert error it logs and rethrows the
error without refetching; on success it refetches and returns the row. -/
def hookCreateTicket (prev : List Ticket) (insertRes : Except BackendErr Ticket)
    (refetch : Except BackendErr (List Ticket)) :
    List Ticket × Except BackendErr Ticket :=
  match insertRes with
  | .error e => (prev, .error e)
  | .ok row => (fetchTicketsEffect prev refetch, .ok row)

/-- The hook `updateTicket`: same shape as `createTicket` — log, rethrow on
error, refetch on success. -/
def hookUpdateTicket (prev : List Ticket) (updateRes : Except BackendErr Ticket)
    (refetch : Except BackendErr (List Ticket)) :
    List Ticket × Except BackendErr Ticket :=
  match updateRes with
  | .error e => (prev, .error e)
  | .ok row => (fetchTicketsEffect prev refetch, .ok row)

/-- The hook `deleteTicket`: log, rethrow on error, refetch on success. -/
def hookDeleteTicket (prev : List Ticket) (deleteRes : Except BackendErr Unit)
    (refetch : Except BackendErr (List Ticket)) :
    List Ticket × Except BackendErr Unit :=
  match deleteRes with
  | .error e => (prev, .error e)
  | .ok _ => (fetchTicketsEffect prev refetch, .ok ())

/-- Insertion step for ordering comments by `created_at` ascending. -/
def insertByCreatedAsc (c : CommentRow) : List CommentRow → List CommentRow
  | [] => [c]
  | x :: xs =>
    if c.created_at ≤ x.created_at then c :: x :: xs
    else x :: insertByCreatedAsc c xs

/-- `fetchComments`: select by ticket id, ordered ascending by creation time. -/
def fetchComments (store : List CommentRow) (ticketId : String) : List CommentRow :=
  ((store.filter (fun c => c.ticket_id == ticketId)).foldr insertByCreatedAsc [])

/-- Local state of the ticket modal's comment panel: the displayed thread
and the textarea contents. -/
structure CommentPanelState where
  comments : List CommentRow
  newComment : String
deriving DecidableEq

/-- The test `!s.trim()`: after trimming leading and trailing whitespace the
string is empty, i.e. every character is whitespace. -/
def isBlank (s : String) : Bool :=
  s.data.all Char.isWhitespace

/-- `addComment` from `TicketModal.tsx`. Returns the panel state, the
comment table, and the error surfaced to the caller. Guard:
`if (!ticket || !newComment.trim()) return`. On an insert error the catch
block logs (`console.error`) and returns normally — the state is unchanged
and no error reaches the caller. On success the textarea is cleared and the
thread refetched. -/
def addComment (ticket : Option Ticket) (caller : UserRow) (now : Nat)
    (st : CommentPanelState) (store : List CommentRow)
    (insertFails : Option BackendErr) :
    CommentPanelState × List CommentRow × Option BackendErr :=
  match ticket with
  | none => (st, store, none)
  | some tk =>
    if isBlank st.newComment then (st, store, none)
    else
      match insertFails with
      | some _ => (st, store, none)
      | none =>
        let store2 := store ++
          [{ ticket_id := tk.id, user_id := caller.id,
             comment := st.newComment, created_at := now }]
        ({ comments := fetchComments store2 tk.id, newComment := "" }, store2, none)

/-- The propagation policy as the claim states it: every error raised by the
storage boundary during a user-initiated mutation — create, update, delete,
add comment — propagates to the initiating UI action and is not silently
swallowed. -/
def mutationErrorsPropagate : Prop :=
  (∀ prev e refetch, (hookCreateTicket prev (.error e) refetch).2 = .error e) ∧
  (∀ prev e refetch, (hookUpdateTicket prev (.error e) refetch).2 = .error e) ∧
  (∀ prev e refetch, (hookDeleteTicket prev (.error e) refetch).2 = .error e) ∧
  (∀ tk caller now st store e, isBlank st.newComment = false →
    (addComment (some tk) caller now st store (some e)).2.2 = some e)

/-- A ticket created by user `u1`, used to instantiate the scope guarantee. -/
def w3own : Ticket :=
  sqlInsertTicket 0 "tk1" "Printer jam" "paper stuck" .low .open_ none "u1" none

/-- A ticket created by another user `u2`. -/
def w3other : Ticket :=
  sqlInsertTicket 1 "tk2" "Printer jam" "paper stuck" .low .open_ none "u2" none

/-- The non-admin caller `u1`. -/
def w3caller : UserRow := ⟨"u1", .user⟩

/-- An active status, priority and search filter combination. -/
def w3filters : Filters := ⟨some "open", some "low", none, some "jam"⟩

/-- An admin caller, used to instantiate the filter-semantics claim. -/
def w4caller : UserRow := ⟨"ad", .admin⟩

/-- A ticket matching status `open` and the search text `JAM`
case-insensitively. -/
def w4ticket : Ticket :=
  sqlInsertTicket 0 "tk4" "Printer jam" "paper stuck" .low .open_ none "u2" none

/-- A ticket that was resolved (so `resolved_at` is set) and then reopened:
its status is `open` again while `resolved_at` stays at one day after
creation. Such a state is reachable because the trigger never resets
`resolved_at` on later status changes. -/
def reopenedTicket : Ticket :=
  { id := "t1", title := "a", description := "b", priority := .medium,
    status := .open_, category := none, created_by := "u1",
    assigned_to := none, created_at := 0, updated_at := 0,
    resolved_at := some 86400000 }

/-- A create payload carrying a foreign creator, a non-open status and a
preset `resolved_at`. -/
def malloryFields : CreateFields :=
  { title := "Printer jam", description := "d", priority := .low,
    status := .in_progress, category := some "Printer",
    created_by := "mallory", assigned_to := none, resolved_at := some 5 }

/-- The third demo ticket from the migration: inserted directly with status
`resolved`. -/
def demoResolvedTicket : Ticket :=
  sqlInsertTicket 0 "t3" "Software installation help" "config steps" .low
    .resolved (some "Software") "u2" (some "u1")

theorem applyUpdate_status (now : Nat) (t : Ticket) (u : TicketUpdate) :
    (applyUpdate now t u).status = u.status.getD t.status := by
  simp only [applyUpdate]
  split <;> simp [applyPayload]

theorem applyUpdate_updated_at (now : Nat) (t : Ticket) (u : TicketUpdate) :
    (applyUpdate now t u).updated_at = now := by
  simp only [applyUpdate]
  split <;> rfl

theorem applyUpdate_resolved_at_some (now : Nat) (t : Ticket) (u : TicketUpdate)
    (v : Nat) (h : t.resolved_at = some v) :
    (applyUpdate now t u).resolved_at = some v := by
  simp only [applyUpdate]
  split
  · next hc => exact absurd hc.2.2 (by simp [h])
  · simpa [applyPayload] using h

theorem runUpdates_resolved_at_some (us : List (Nat × TicketUpdate)) (t : Ticket)
    (v : Nat) (h : t.resolved_at = some v) :
    (runUpdates t us).resolved_at = some v := by
  induction us generalizing t with
  | nil => simpa [runUpdates] using h
  | cons hd rest ih =>
    obtain ⟨now, u⟩ := hd
    exact ih (applyUpdate now t u) (applyUpdate_resolved_at_some now t u v h)

theorem applyUpdate_resolved_at_of_none (now : Nat) (t : Ticket) (u : TicketUpdate)
    (h : t.resolved_at = none) :
    (applyUpdate now t u).resolved_at =
      if t.status ≠ u.status.getD t.status ∧
          isResolvedOrClosed (u.status.getD t.status) = true then some now
      else none := by
  simp only [applyUpdate]
  split
  · next hc =>
    have h1 : t.status ≠ u.status.getD t.status := by
      simpa [applyPayload] using hc.1
    have h2 : isResolvedOrClosed (u.status.getD t.status) = true := by
      simpa [applyPayload] using hc.2.1
    simp [h1, h2]
  · next hc =>
    have hneg : ¬(t.status ≠ u.status.getD t.status ∧
        isResolvedOrClosed (u.status.getD t.status) = true) := by
      intro hcon
      exact hc ⟨by simpa [applyPayload] using hcon.1,
        by simpa [applyPayload] using hcon.2, h⟩
    simp [hneg, applyPayload, h]

theorem runUpdates_append (t : Ticket) (us vs : List (Nat × TicketUpdate)) :
    runUpdates t (us ++ vs) = runUpdates (runUpdates t us) vs := by
  induction us generalizing t with
  | nil => simp [runUpdates]
  | cons hd rest ih =>
    obtain ⟨now, u⟩ := hd
    simp [runUpdates, ih]

/-- Claim C1: for every ticket and every sequence of successful updates,
`resolved_at` is null until the first update whose status transitions into
`resolved` or `closed`; at that update it is set to the current time, and no
subsequent update alters or resets it: the final `resolved_at` equals
`firstResolution`, which only looks at the first such transition. -/
theorem c1_resolved_at_set_once (t : Ticket) (us : List (Nat × TicketUpdate))
    (h : t.resolved_at = none) :
    (runUpdates t us).resolved_at = firstResolution t.status us := by
  revert h
  induction us generalizing t with
  | nil =>
    intro h
    simpa [runUpdates, firstResolution] using h
  | cons hd rest ih =>
    intro h
    obtain ⟨now, u⟩ := hd
    simp only [runUpdates, firstResolution]
    by_cases hc : t.status ≠ u.status.getD t.status ∧
        isResolvedOrClosed (u.status.getD t.status) = true
    · rw [if_pos hc]
      have hset : (applyUpdate now t u).resolved_at = some now := by
        rw [applyUpdate_resolved_at_of_none now t u h, if_pos hc]
      exact runUpdates_resolved_at_some rest _ now hset
    · rw [if_neg hc]
      have hnone : (applyUpdate now t u).resolved_at = none := by
        rw [applyUpdate_resolved_at_of_none now t u h, if_neg hc]
      have hstep := ih (applyUpdate now t u) hnone
      rwa [applyUpdate_status] at hstep

/-- Claim C1 witness: a fresh ticket resolved at time 5, reopened at 9 and
closed again at 12 keeps `resolved_at = 5`. -/
theorem c1_resolved_at_set_once_witness :
    (sqlInsertTicket 0 "t9" "a" "b" .medium .open_ none "u1" none).resolved_at
        = none ∧
    (runUpdates (sqlInsertTicket 0 "t9" "a" "b" .medium .open_ none "u1" none)
        [(5, ⟨some .resolved, none, none⟩), (9, ⟨some .open_, none, none⟩),
         (12, ⟨some .closed, none, none⟩)]).resolved_at =
      firstResolution (sqlInsertTicket 0 "t9" "a" "b" .medium .open_ none "u1" none).status
        [(5, ⟨some .resolved, none, none⟩), (9, ⟨some .open_, none, none⟩),
         (12, ⟨some .closed, none, none⟩)] ∧
    firstResolution Status.open_
        [(5, ⟨some .resolved, none, none⟩), (9, ⟨some .open_, none, none⟩),
         (12, ⟨some .closed, none, none⟩)] = some 5 :=
  ⟨rfl, c1_resolved_at_set_once _ _ rfl, by decide⟩

/-- Claim C2: every successful ticket update — on any write path, since the
trigger is `BEFORE UPDATE ... FOR EACH ROW` — refreshes `updated_at` to the
current time: a single update sets it to `now`, and after any sequence of
updates it equals the time of the last one. -/
theorem c2_updated_at_refresh :
    (∀ (t : Ticket) (u : TicketUpdate) (now : Nat),
      (applyUpdate now t u).updated_at = now) ∧
    (∀ (t : Ticket) (us : List (Nat × TicketUpdate)) (now : Nat) (u : TicketUpdate),
      (runUpdates t (us ++ [(now, u)])).updated_at = now) := by
  refine ⟨fun t u now => applyUpdate_updated_at now t u, fun t us now u => ?_⟩
  rw [runUpdates_append]
  exact applyUpdate_updated_at now _ u

theorem mem_insertByCreatedDesc (a t : Ticket) (l : List Ticket) :
    a ∈ insertByCreatedDesc t l ↔ a = t ∨ a ∈ l := by
  induction l with
  | nil => simp [insertByCreatedDesc]
  | cons x xs ih =>
    simp only [insertByCreatedDesc]
    split
    · simp [List.mem_cons]
    · simp only [List.mem_cons, ih]
      tauto

theorem mem_sortByCreatedDesc (a : Ticket) (l : List Ticket) :
    a ∈ sortByCreatedDesc l ↔ a ∈ l := by
  induction l with
  | nil => simp [sortByCreatedDesc]
  | cons x xs ih =>
    have hstep : sortByCreatedDesc (x :: xs) =
        insertByCreatedDesc x (sortByCreatedDesc xs) := rfl
    rw [hstep, mem_insertByCreatedDesc]
    simp [ih, List.mem_cons]

theorem mem_of_mem_applyFilterIf {t : Ticket} {b : Bool} {p : Ticket → Bool}
    {l : List Ticket} (h : t ∈ applyFilterIf b p l) : t ∈ l := by
  unfold applyFilterIf at h
  split at h
  · exact (List.mem_filter.mp h).1
  · exact h

theorem pred_of_mem_applyFilterIf {t : Ticket} {b : Bool} {p : Ticket → Bool}
    {l : List Ticket} (hb : b = true) (h : t ∈ applyFilterIf b p l) :
    p t = true := by
  subst hb
  exact (List.mem_filter.mp (by simpa [applyFilterIf] using h)).2

/-- Claim C3: for every non-admin caller and every filter combination, the
list returned by `fetchTickets` never contains a ticket whose creator and
assignee both differ from the caller — indeed every returned ticket was
created by the caller, since the role scope is applied before the
user-supplied filters. -/
theorem c3_nonadmin_scope (caller : UserRow) (f : Filters) (rows : List Ticket)
    (t : Ticket) (hrole : caller.role ≠ Role.admin)
    (hmem : t ∈ fetchTickets caller f rows) :
    t.created_by = caller.id ∧
      ¬(t.created_by ≠ caller.id ∧ t.assigned_to ≠ some caller.id) := by
  have huser : caller.role = Role.user := by
    cases h : caller.role with
    | user => rfl
    | admin => exact absurd h hrole
  simp only [fetchTickets, huser, if_pos] at hmem
  rw [mem_sortByCreatedDesc] at hmem
  have h3 := mem_of_mem_applyFilterIf hmem
  have h2 := mem_of_mem_applyFilterIf h3
  have h1 := mem_of_mem_applyFilterIf h2
  have h0 := mem_of_mem_applyFilterIf h1
  have hcreated : (t.created_by == caller.id) = true :=
    (List.mem_filter.mp h0).2
  have heq : t.created_by = caller.id := by simpa using hcreated
  exact ⟨heq, fun hcon => hcon.1 heq⟩

/-- Claim C3 witness: a non-admin caller with an active status, priority and
search filter sees their own ticket but not the foreign one, and the scope
guarantee applies to it. -/
theorem c3_nonadmin_scope_witness :
    w3caller.role ≠ Role.admin ∧
    w3own ∈ fetchTickets w3caller w3filters [w3own, w3other] ∧
    (w3own.created_by = w3caller.id ∧
      ¬(w3own.created_by ≠ w3caller.id ∧ w3own.assigned_to ≠ some w3caller.id)) :=
  ⟨by decide, by decide,
    c3_nonadmin_scope w3caller w3filters [w3own, w3other] w3own
      (by decide) (by decide)⟩

/-- Claim C4: with a non-empty search string and a status filter other than
`all` (and non-empty, per the JavaScript truthiness guard), every ticket in
the result matches the status exactly and contains the search string
case-insensitively in its title or description; and filter values that are
empty, `all`, or absent impose no constraint — the query result is the same
as with no filter at all. -/
theorem c4_filter_semantics :
    (∀ (caller : UserRow) (st se : String) (pr as_ : Option String)
        (rows : List Ticket) (t : Ticket),
      st ≠ "" → st ≠ "all" → se ≠ "" →
      t ∈ fetchTickets caller ⟨some st, pr, as_, some se⟩ rows →
      statusToString t.status = st ∧
        (ilike se t.title = true ∨ ilike se t.description = true)) ∧
    (∀ (caller : UserRow) (pr as_ : Option String) (rows : List Ticket),
      fetchTickets caller ⟨some "all", pr, as_, some ""⟩ rows =
        fetchTickets caller ⟨none, pr, as_, none⟩ rows) ∧
    (∀ (caller : UserRow) (pr as_ : Option String) (rows : List Ticket),
      fetchTickets caller ⟨some "", pr, as_, some ""⟩ rows =
        fetchTickets caller ⟨none, pr, as_, none⟩ rows) := by
  refine ⟨?_, ?_, ?_⟩
  · intro caller st se pr as_ rows t hst hall hse hmem
    simp only [fetchTickets] at hmem
    rw [mem_sortByCreatedDesc] at hmem
    have hseActive : searchActive (some se) = true := by
      simp [searchActive, hse]
    have hsearch := pred_of_mem_applyFilterIf hseActive hmem
    have h3 := mem_of_mem_applyFilterIf hmem
    have h2 := mem_of_mem_applyFilterIf h3
    have h1 := mem_of_mem_applyFilterIf h2
    have hstActive : eqFilterActive (some st) = true := by
      simp [eqFilterActive, hst, hall]
    have hstatus := pred_of_mem_applyFilterIf hstActive h1
    constructor
    · simpa using hstatus
    · simpa [Bool.or_eq_true] using hsearch
  · intro caller pr as_ rows
    rfl
  · intro caller pr as_ rows
    rfl

/-- Claim C4 witness: the search string `JAM` with status filter `open`
returns a matching ticket, which satisfies both the status and the
case-insensitive substring condition. -/
theorem c4_filter_semantics_witness :
    ("open" ≠ "" ∧ "open" ≠ "all" ∧ "JAM" ≠ "" ∧
      w4ticket ∈ fetchTickets w4caller ⟨some "open", none, none, some "JAM"⟩ [w4ticket]) ∧
    (statusToString w4ticket.status = "open" ∧
      (ilike "JAM" w4ticket.title = true ∨ ilike "JAM" w4ticket.description = true)) :=
  ⟨⟨by decide, by decide, by decide, by decide⟩,
    c4_filter_semantics.1 w4caller "open" "JAM" none none [w4ticket] w4ticket
      (by decide) (by decide) (by decide) (by decide)⟩

/-- Claim C5: the dashboard resolution rate is `0` when there are no
tickets, and otherwise the nearest integer (ties up) to
`resolvedCount / total * 100`, where `resolvedCount` counts tickets with
status `resolved` or `closed`. -/
theorem c5_resolution_rate (ts : List Ticket) :
    resolutionRate ts =
      if 0 < ts.length then roundNearest (100 * resolvedCount ts) ts.length
      else 0 := by
  unfold resolutionRate roundNearest
  by_cases hl : 0 < ts.length
  · rw [if_pos hl, if_pos hl]
    have hne : (ts.length : ℚ) ≠ 0 := Nat.cast_ne_zero.mpr hl.ne'
    have hkey : (resolvedCount ts : ℚ) / (ts.length : ℚ) * 100 + 1 / 2 =
        ((2 * (100 * resolvedCount ts) + ts.length : ℕ) : ℚ) /
          ((2 * ts.length : ℕ) : ℚ) := by
      push_cast
      field_simp
      ring
    rw [hkey, Nat.floor_div_nat, Nat.floor_natCast]
  · rw [if_neg hl, if_neg hl]

/-- Claim C6 counterexample: for the reopened ticket — `resolved_at` set one
day after creation but status back to `open` — the claim's average (over all
tickets with `resolved_at` set) is `1` day, while the dashboard computes `0`
because its qualifying set additionally requires status `resolved` or
`closed`. So the dashboard average is not computed over the set the claim
describes. -/
theorem c6_avg_resolution_counterexample :
    avgResolutionTime [reopenedTicket] ≠ claimedAvgResolutionTime [reopenedTicket] ∧
    avgResolutionTime [reopenedTicket] = 0 ∧
    claimedAvgResolutionTime [reopenedTicket] = 1 := by
  have h1 : avgResolutionTime [reopenedTicket] = 0 := by
    simp [avgResolutionTime, resolvedTicketsWithTime, hasResolutionTime,
      reopenedTicket, isResolvedOrClosed]
  have h2 : claimedAvgResolutionTime [reopenedTicket] = 1 := by
    simp [claimedAvgResolutionTime, reopenedTicket, sumResolutionMs, msPerDay]
  exact ⟨by rw [h1, h2]; norm_num, h1, h2⟩

/-- Claim C6 amended: the dashboard's average resolution time is computed
exactly over the tickets whose status is `resolved` or `closed` and whose
`resolved_at` is set: any ticket outside that set is excluded from both the
numerator and the denominator (inserting one anywhere leaves the average
unchanged), the average is `0` when the set is empty, and otherwise it is
the mean of `resolved_at - created_at` converted to days. -/
theorem c6_avg_resolution_amended :
    (∀ (ts1 ts2 : List Ticket) (t : Ticket), hasResolutionTime t = false →
      avgResolutionTime (ts1 ++ t :: ts2) = avgResolutionTime (ts1 ++ ts2)) ∧
    (∀ ts : List Ticket, (∀ t ∈ ts, hasResolutionTime t = false) →
      avgResolutionTime ts = 0) ∧
    (∀ ts : List Ticket, 0 < (resolvedTicketsWithTime ts).length →
      avgResolutionTime ts =
        (sumResolutionMs (resolvedTicketsWithTime ts) : ℚ) /
          ((resolvedTicketsWithTime ts).length : ℚ) / (msPerDay : ℚ)) := by
  refine ⟨?_, ?_, ?_⟩
  · intro ts1 ts2 t ht
    simp [avgResolutionTime, resolvedTicketsWithTime, List.filter_append,
      List.filter_cons, ht]
  · intro ts hall
    have hnil : resolvedTicketsWithTime ts = [] := by
      simp only [resolvedTicketsWithTime, List.filter_eq_nil_iff]
      intro t htmem
      simp [hall t htmem]
    simp [avgResolutionTime, hnil]
  · intro ts hpos
    rw [avgResolutionTime, if_pos hpos]

/-- Claim C6 amended witness: inserting the reopened ticket (status `open`,
`resolved_at` set) into a collection does not change the dashboard average. -/
theorem c6_avg_resolution_amended_witness :
    hasResolutionTime reopenedTicket = false ∧
    avgResolutionTime ([] ++ reopenedTicket :: [demoResolvedTicket]) =
      avgResolutionTime ([] ++ [demoResolvedTicket]) :=
  ⟨by decide,
    c6_avg_resolution_amended.1 [] [demoResolvedTicket] reopenedTicket (by decide)⟩

/-- Claim C7 counterexample: `createTicket` does force `created_by` to the
caller, but it does not force status `open` or a null `resolved_at`: a field
record carrying status `in_progress` and a preset `resolved_at` is persisted
as supplied, so the claim's "status 'open' and resolved_at null for every
field record" is false. -/
theorem c7_create_counterexample :
    (createTicketRow ⟨"u1", .user⟩ 0 "tid" malloryFields).created_by = "u1" ∧
    (createTicketRow ⟨"u1", .user⟩ 0 "tid" malloryFields).status ≠ .open_ ∧
    (createTicketRow ⟨"u1", .user⟩ 0 "tid" malloryFields).resolved_at ≠ none := by
  refine ⟨rfl, ?_, ?_⟩ <;> decide

/-- Claim C7 amended: `createTicket` persists `created_by` as the caller's
id regardless of any supplied creator value, while status and `resolved_at`
are persisted exactly as supplied; the repository's create form always
supplies status `open` and no `resolved_at` (title, description and priority
are required fields of the payload), so every ticket created through it has
status `open`, `created_by` equal to the caller and `resolved_at` null. -/
theorem c7_create_amended :
    ∀ (caller : UserRow) (now : Nat) (newId : String) (f : CreateFields),
      (createTicketRow caller now newId f).created_by = caller.id ∧
      (createTicketRow caller now newId f).status = f.status ∧
      (createTicketRow caller now newId f).resolved_at = f.resolved_at ∧
      (∀ (title description : String) (priority : Priority) (category : Option String),
        (createTicketRow caller now newId
          (handleSubmitFields title description priority category)).status = .open_ ∧
        (createTicketRow caller now newId
          (handleSubmitFields title description priority category)).created_by = caller.id ∧
        (createTicketRow caller now newId
          (handleSubmitFields title description priority category)).resolved_at = none) :=
  fun _ _ _ _ => ⟨rfl, rfl, rfl, fun _ _ _ _ => ⟨rfl, rfl, rfl⟩⟩

/-- Claim C8 counterexample: the propagation policy fails for `addComment` —
on a storage error with a valid (non-blank) comment body, the catch block
only logs, so the caller-visible error is `none`, not the raised error. -/
theorem c8_propagation_counterexample : ¬ mutationErrorsPropagate := by
  intro h
  have hswallow := h.2.2.2 w3own w3caller 0 ⟨[], "help"⟩ [] .backend (by decide)
  have hnone : (addComment (some w3own) w3caller 0 ⟨[], "help"⟩ [] (some .backend)).2.2
      = none := by decide
  exact Option.noConfusion (hnone.symm.trans hswallow)

/-- Claim C8 amended: errors raised by the storage boundary during
`createTicket`, `updateTicket` and `deleteTicket` propagate (are rethrown)
to the initiating UI action with the displayed list unchanged; a background
`fetchTickets` refresh that fails logs and leaves the prior state displayed;
but `addComment` catches the storage error, logs it, and surfaces no denial
— its panel state and the comment store are left unchanged. -/
theorem c8_propagation_amended :
    (∀ prev e refetch, hookCreateTicket prev (.error e) refetch = (prev, .error e)) ∧
    (∀ prev e refetch, hookUpdateTicket prev (.error e) refetch = (prev, .error e)) ∧
    (∀ prev e refetch, hookDeleteTicket prev (.error e) refetch = (prev, .error e)) ∧
    (∀ prev e, fetchTicketsEffect prev (.error e) = prev) ∧
    (∀ tk caller now st store e,
      addComment (some tk) caller now st store (some e) = (st, store, none)) := by
  refine ⟨fun _ _ _ => rfl, fun _ _ _ => rfl, fun _ _ _ => rfl, fun _ _ => rfl,
    fun tk caller now st store e => ?_⟩
  by_cases hb : isBlank st.newComment <;> simp [addComment, hb]

/-- Claim C9: the resolved-at bookkeeping never fires on insert — a ticket
inserted directly (as the migration's demo rows are, even with status
`resolved` or `closed`) starts with `resolved_at` null and keeps the
supplied status — and an update whose new status equals the old one leaves
`resolved_at` unchanged, because the trigger requires
`OLD.status != NEW.status`. -/
theorem c9_insert_no_bookkeeping :
    (∀ (now : Nat) (newId title description : String) (priority : Priority)
        (status : Status) (category : Option String) (created_by : String)
        (assigned_to : Option String),
      (sqlInsertTicket now newId title description priority status category
        created_by assigned_to).resolved_at = none ∧
      (sqlInsertTicket now newId title description priority status category
        created_by assigned_to).status = status) ∧
    (∀ (t : Ticket) (u : TicketUpdate) (now : Nat),
      u.status.getD t.status = t.status →
      (applyUpdate now t u).resolved_at = t.resolved_at) := by
  refine ⟨fun _ _ _ _ _ _ _ _ _ => ⟨rfl, rfl⟩, fun t u now h => ?_⟩
  cases hres : t.resolved_at with
  | some v =>
    exact applyUpdate_resolved_at_some now t u v hres
  | none =>
    have hneg : ¬(t.status ≠ u.status.getD t.status ∧
        isResolvedOrClosed (u.status.getD t.status) = true) :=
      fun hcon => hcon.1 h.symm
    exact (applyUpdate_resolved_at_of_none now t u hres).trans (if_neg hneg)

/-- Claim C9 witness: the demo ticket inserted with status `resolved` has
`resolved_at` null, and an update re-supplying the same status leaves it
null. -/
theorem c9_insert_no_bookkeeping_witness :
    (demoResolvedTicket.resolved_at = none ∧ demoResolvedTicket.status = .resolved) ∧
    (TicketUpdate.status ⟨some .resolved, none, none⟩ |>.getD demoResolvedTicket.status)
        = demoResolvedTicket.status ∧
    (applyUpdate 9 demoResolvedTicket ⟨some .resolved, none, none⟩).resolved_at
        = demoResolvedTicket.resolved_at :=
  ⟨⟨rfl, rfl⟩, rfl,
    c9_insert_no_bookkeeping.2 demoResolvedTicket ⟨some .resolved, none, none⟩ 9 rfl⟩

/-- Claim C10: when the comment body is empty or whitespace-only,
`addComment` returns before the insert: the comment store, the displayed
thread and the textarea are unchanged, and no error or denial is surfaced. -/
theorem c10_blank_comment_noop (ticket : Ticket) (caller : UserRow) (now : Nat)
    (st : CommentPanelState) (store : List CommentRow)
    (insertFails : Option BackendErr) (h : isBlank st.newComment = true) :
    addComment (some ticket) caller now st store insertFails = (st, store, none) := by
  simp [addComment, h]

/-- Claim C10 witness: a whitespace-only comment body leaves everything
unchanged and reports nothing. -/
theorem c10_blank_comment_noop_witness :
    isBlank (CommentPanelState.newComment ⟨[], "   "⟩) = true ∧
    addComment (some w3own) w3caller 7 ⟨[], "   "⟩ [] none = (⟨[], "   "⟩, [], none) :=
  ⟨by decide, c10_blank_comment_noop w3own w3caller 7 ⟨[], "   "⟩ [] none (by decide)⟩

end TicketSystem
